import Mathlib

/-!
# Verification of the EJSupervision_Importer ETL engine

A shallow embedding, in Lean 4, of the generic import-pipeline engine of the
EJSupervision_Importer repository:

* the SQL execution primitives of `utils/etl_helpers.py`
  (`run_sql_step`, `run_sql_step_with_retry`, `run_sql_script`);
* the success/failure counters of `utils/logging_helper.py`;
* the sanitization guards of `etl/core.py`
  (`sanitize_sql`, `validate_sql_identifier`);
* the per-row table-operations loop and the primary-key/constraint loop of
  `etl/base_importer.py` (`execute_table_operations`, `create_primary_keys`);
* the `transaction_scope` context manager (imported by
  `etl/base_importer.py` from `utils.etl_helpers` and exercised by
  `tests/test_etl_helpers.py`, but whose definition is absent from the
  provided sources; it is modelled from the spec).

Python exceptions are modelled with `Except`; the pyodbc driver and DB
connection are modelled as oracles (functions giving the outcome of each
driver call); the process-wide `operation_counts` dictionary is threaded
through explicitly as a `Counts` value.
-/

namespace EJ

/-- The success/failure tallies of `utils/logging_helper.py`
(`operation_counts = {"success": 0, "failure": 0}`). -/
structure Counts where
  success : Nat
  failure : Nat
  deriving DecidableEq, Repr

/-- `record_success`: `operation_counts["success"] += 1`. -/
def record_success (c : Counts) : Counts :=
  { c with success := c.success + 1 }

/-- `record_failure`: `operation_counts["failure"] += 1`. -/
def record_failure (c : Counts) : Counts :=
  { c with failure := c.failure + 1 }

/-! ### Character-list string primitives

Python's `str.split`, `str.strip`, `str.replace`, `str.startswith` and
substring containment, re-implemented by structural recursion over
character lists so that every definition evaluates by kernel reduction.
They are used below wherever the Python code manipulates SQL text. -/

/-- A whitespace character as Python's `str.strip` and the regex `\s`
treat it (the ASCII part: space, tab, newline, carriage return, vertical
tab, form feed). -/
def isPySpace (c : Char) : Bool :=
  c = ' ' || c = '\t' || c = '\n' || c = '\x0d' || c = '\x0b' || c = '\x0c'

/-- A `\w` word character (`[A-Za-z0-9_]`, ASCII part), used for the `\b`
boundaries of the `\bOR\b` pattern. -/
def isWordChar (c : Char) : Bool :=
  c.isAlphanum || c = '_'

/-- Literal match: if `cs` starts with `ks`, return the remainder. -/
def dropLit : List Char → List Char → Option (List Char)
  | [], cs => some cs
  | _ :: _, [] => none
  | k :: ks, c :: cs => if c = k then dropLit ks cs else none

/-- Fuelled worker for `pySplit`, scanning left to right for
non-overlapping occurrences of the (non-empty) separator.  The fuel is at
least the input length plus one, so it never runs out. -/
def splitOnFuel (sep : List Char) : Nat → List Char → List Char → List (List Char)
  | 0, cs, acc => [acc.reverse ++ cs]
  | fuel + 1, cs, acc =>
    match cs with
    | [] => [acc.reverse]
    | c :: cs2 =>
      match dropLit sep cs with
      | some rest => acc.reverse :: splitOnFuel sep fuel rest []
      | none => splitOnFuel sep fuel cs2 (c :: acc)

/-- Python `s.split(sep)` for a non-empty separator (also the behaviour of
`String.splitOn`): split at each non-overlapping occurrence, keeping
empty pieces. -/
def pySplit (s sep : String) : List String :=
  (splitOnFuel sep.data (s.data.length + 1) s.data []).map String.mk

/-- Python `s.strip()` (ASCII whitespace). -/
def pyStrip (s : String) : String :=
  String.mk (((s.data.dropWhile isPySpace).reverse.dropWhile isPySpace).reverse)

/-- Python `s.startswith(p)`. -/
def startsWithChars (p : List Char) (s : String) : Bool :=
  (dropLit p s.data).isSome

/-- Python `pat in s` (substring containment), for a non-empty `pat`. -/
def containsSeq (pat : List Char) : List Char → Bool
  | [] => (dropLit pat ([] : List Char)).isSome
  | c :: cs => (dropLit pat (c :: cs)).isSome || containsSeq pat cs

/-- Fuelled worker for `pyReplace`: replace each non-overlapping
occurrence of the (non-empty) pattern, left to right. -/
def replaceFuel (pat rep : List Char) : Nat → List Char → List Char
  | 0, cs => cs
  | fuel + 1, cs =>
    match cs with
    | [] => []
    | c :: cs2 =>
      match dropLit pat cs with
      | some rest => rep ++ replaceFuel pat rep fuel rest
      | none => c :: replaceFuel pat rep fuel cs2

/-- Python `s.replace(pat, rep)` for a non-empty pattern (also the
behaviour of `String.replace`). -/
def pyReplace (s pat rep : String) : String :=
  String.mk (replaceFuel pat.data rep.data (s.data.length + 1) s.data)

/-- A raw driver/database exception (the `Exception` raised by a cursor
call).  `isPyodbcError` models `isinstance(e, pyodbc.Error)`; `msg` models
`str(e)`. -/
structure Err where
  isPyodbcError : Bool
  msg : String
  deriving DecidableEq, Repr

/-- `SQLExecutionError(sql, original_error, table_name)` from
`utils/etl_helpers.py`. -/
structure SQLExecutionError where
  sql : String
  original_error : Err
  table_name : Option String
  deriving DecidableEq, Repr

/-- `str(exc)` for a `SQLExecutionError`: the message built by its
`__init__`, `f"SQL execution failed for {table_name or 'statement'}:
{original_error}"`. -/
def SQLExecutionError.message (e : SQLExecutionError) : String :=
  "SQL execution failed for " ++ (e.table_name.getD "statement") ++ ": "
    ++ e.original_error.msg

/-- Outcome of one `run_sql_step` driver interaction (the
`cursor.execute(sql)` + `cursor.fetchall()` pair): either the statement
executed — with `some results` if `fetchall` succeeded, `none` if fetching
raised (`results = None` branch) — or the execution raised a raw error. -/
inductive ExecOutcome where
  | ok (results : Option (List String))
  | err (e : Err)
  deriving DecidableEq, Repr

/-- `run_sql_step(conn, name, sql, timeout)` from `utils/etl_helpers.py`,
with the driver's behaviour for this call abstracted as `outcome`.
On success it calls `record_success` and returns the fetched results; on a
raw error it calls `record_failure` and raises
`SQLExecutionError(sql, e, table_name=name)`. -/
def run_sql_step (outcome : ExecOutcome) (name sql : String) (counts : Counts) :
    Except SQLExecutionError (Option (List String)) × Counts :=
  match outcome with
  | .ok results => (.ok results, record_success counts)
  | .err e => (.error ⟨sql, e, some name⟩, record_failure counts)

/-- The observable trace of one `run_sql_step_with_retry` call: the value
returned or exception raised, the number of `run_sql_step` executions
actually performed, the list of `time.sleep` durations (seconds) in order,
and the final counters. -/
structure RetryTrace where
  result : Except SQLExecutionError (Option (List String))
  attemptsMade : Nat
  sleeps : List Nat
  counts : Counts
  deriving Repr

/-- The `for attempt in range(max_retries)` loop of
`run_sql_step_with_retry`, started at loop counter `attempt`.  `behavior n`
is the driver outcome of the `run_sql_step` call made at loop counter `n`.
Faithful to `utils/etl_helpers.py` lines 115-132: a successful step
returns; on `SQLExecutionError`, a non-`pyodbc.Error` cause re-raises at
once, the last attempt (`attempt == max_retries - 1`) re-raises, and
otherwise the loop sleeps `2**attempt` seconds and continues.  Falling out
of the loop returns `None` (modelled `.ok none`). -/
def retryLoop (behavior : Nat → ExecOutcome) (name sql : String)
    (max_retries : Nat) (attempt : Nat) (counts : Counts) : RetryTrace :=
  if _h : attempt < max_retries then
    match run_sql_step (behavior attempt) name sql counts with
    | (.ok results, counts1) =>
        { result := .ok results, attemptsMade := 1, sleeps := [], counts := counts1 }
    | (.error exc, counts1) =>
        if ¬ exc.original_error.isPyodbcError then
          { result := .error exc, attemptsMade := 1, sleeps := [], counts := counts1 }
        else if attempt = max_retries - 1 then
          { result := .error exc, attemptsMade := 1, sleeps := [], counts := counts1 }
        else
          let rest := retryLoop behavior name sql max_retries (attempt + 1) counts1
          { result := rest.result, attemptsMade := rest.attemptsMade + 1,
            sleeps := 2 ^ attempt :: rest.sleeps, counts := rest.counts }
  else
    { result := .ok none, attemptsMade := 0, sleeps := [], counts := counts }
termination_by max_retries - attempt

/-- `run_sql_step_with_retry(conn, name, sql, timeout, max_retries)`:
the retry loop started at `attempt = 0`. -/
def run_sql_step_with_retry (behavior : Nat → ExecOutcome) (name sql : String)
    (max_retries : Nat) (counts : Counts) : RetryTrace :=
  retryLoop behavior name sql max_retries 0 counts

/-! ### `run_sql_script` (`utils/etl_helpers.py` lines 133-181) -/

/-- The batch split of `run_sql_script`:
`sql.split('\nGO\n') if '\nGO\n' in sql else [sql]`.
(`String.splitOn` returns `[sql]` when the separator does not occur, so
both branches of the Python conditional agree with `splitOn`.) -/
def sql_batches (sql : String) : List String :=
  if containsSeq "\nGO\n".data sql.data then pySplit sql "\nGO\n" else [sql]

/-- The statement split of one batch:
`[stmt.strip() for stmt in batch.split(';') if stmt.strip()]`. -/
def batch_statements (batch : String) : List String :=
  ((pySplit batch ";").map pyStrip).filter (fun stmt => stmt ≠ "")

/-- All stripped, non-blank fragments of a script, in execution order
(batches in order, statements in order inside each batch). -/
def script_fragments (sql : String) : List String :=
  ((sql_batches sql).map batch_statements).flatten

/-- The fragments `run_sql_script` actually submits to the cursor: the
non-blank fragments whose text does not start with the `--` comment marker
(`if stmt and not stmt.strip().startswith('--')`). -/
def script_executable_fragments (sql : String) : List String :=
  (script_fragments sql).filter (fun stmt => ¬ startsWithChars ['-', '-'] stmt)

/-- The observable trace of a `run_sql_script` call: the statements
submitted to `cursor.execute` in order, the number of `conn.commit()`
calls made by the statement loop, and the final counters. -/
structure ScriptTrace where
  result : Except SQLExecutionError Unit
  executed : List String
  commits : Nat
  counts : Counts
  deriving Repr

/-- The statement loop of `run_sql_script`: for each fragment, skip it if
it starts with `--`, otherwise `cursor.execute(stmt)`, `conn.commit()` and
count it; a raised error becomes `SQLExecutionError(stmt, e,
table_name=name)` and stops the loop.  `execStmt` is the driver oracle for
`cursor.execute`. -/
def script_loop (execStmt : String → Except Err Unit) (name : String) :
    List String → List String → Nat →
      Except SQLExecutionError Unit × List String × Nat
  | [], executed, commits => (.ok (), executed, commits)
  | stmt :: rest, executed, commits =>
    if startsWithChars ['-', '-'] stmt then
      script_loop execStmt name rest executed commits
    else
      match execStmt stmt with
      | .ok _ => script_loop execStmt name rest (executed ++ [stmt]) (commits + 1)
      | .error e => (.error ⟨stmt, e, some name⟩, executed ++ [stmt], commits)

/-- `run_sql_script(conn, name, sql, timeout)`.  The initial
`cursor.execute(f"SET LOCK_TIMEOUT {timeout * 1000}")` is submitted
through the same oracle; if it raises, the raw error reaches the generic
`except Exception` handler, which calls `record_failure` and wraps the
whole script.  A `SQLExecutionError` raised by the statement loop is
re-raised unchanged by the `except SQLExecutionError: raise` handler —
with no counter update.  Only the fully successful path calls
`record_success` (once per script). -/
def run_sql_script (execStmt : String → Except Err Unit) (name sql : String)
    (timeout : Nat) (counts : Counts) : ScriptTrace :=
  let lockStmt := "SET LOCK_TIMEOUT " ++ toString (timeout * 1000)
  match execStmt lockStmt with
  | .error e =>
      { result := .error ⟨sql, e, some name⟩, executed := [lockStmt],
        commits := 0, counts := record_failure counts }
  | .ok _ =>
      match script_loop execStmt name (script_fragments sql) [lockStmt] 0 with
      | (.ok _, executed, commits) =>
          { result := .ok (), executed := executed, commits := commits,
            counts := record_success counts }
      | (.error exc, executed, commits) =>
          { result := .error exc, executed := executed, commits := commits,
            counts := counts }

/-! ### `sanitize_sql` and `validate_sql_identifier` (`etl/core.py`) -/

/-- Characters removed by the control-character strip
`re.sub(r'[\x00-\x08\x0B\x0C\x0E-\x1F\x7F-\x9F]', '', sql_text)`. -/
def isStrippedCtrl (c : Char) : Bool :=
  c.val ≤ 0x08 || c.val = 0x0B || c.val = 0x0C
    || (0x0E ≤ c.val && c.val ≤ 0x1F) || (0x7F ≤ c.val && c.val ≤ 0x9F)

/-- The control-character strip itself. -/
def stripCtrl (s : String) : String :=
  String.mk (s.data.filter (fun c => ¬ isStrippedCtrl c))

/-- Case-insensitive literal match: if `cs` starts (after lowercasing)
with `kw`, return the remainder. -/
def dropCI : List Char → List Char → Option (List Char)
  | [], cs => some cs
  | _ :: _, [] => none
  | k :: ks, c :: cs => if c.toLower = k then dropCI ks cs else none

/-- Does the denylist pattern `;\s*(?:drop|delete|truncate|alter)\s+`
(case-insensitive) match starting exactly at the head of `cs`? -/
def matchTermKw (cs : List Char) : Bool :=
  match cs with
  | ';' :: rest =>
    let rest := rest.dropWhile isPySpace
    ["drop", "delete", "truncate", "alter"].any (fun kw =>
      match dropCI kw.data rest with
      | some (c :: _) => isPySpace c
      | _ => false)
  | _ => false

/-- Does the denylist pattern `--` match at the head of `cs`? -/
def matchDashDash (cs : List Char) : Bool :=
  match cs with
  | '-' :: '-' :: _ => true
  | _ => false

/-- Does `\bOR\b\s+1=1` (case-insensitive) match at the head of `cs`,
given whether the preceding character was a word character (the left
`\b`)?  The right `\b` after `OR` is implied by the mandatory `\s+`. -/
def matchOr11 (prevWord : Bool) (cs : List Char) : Bool :=
  if prevWord then false
  else
    match dropCI ['o', 'r'] cs with
    | some rest =>
      let rest2 := rest.dropWhile isPySpace
      decide (rest2.length < rest.length) &&
        (match rest2 with
         | '1' :: '=' :: '1' :: _ => true
         | _ => false)
    | none => false

/-- Scan of `injection_regex.search`: does any position of the text start
a match of one of the three denylist patterns?  `prevWord` tracks whether
the previous character is a word character. -/
def injScan : List Char → Bool → Bool
  | [], _ => false
  | c :: cs, prevWord =>
    matchTermKw (c :: cs) || matchDashDash (c :: cs)
      || matchOr11 prevWord (c :: cs) || injScan cs (isWordChar c)

/-- `injection_regex.search(sql_text)` is not `None`. -/
def containsInjection (s : String) : Bool :=
  injScan s.data false

/-- `sanitize_sql(sql_text)` from `etl/core.py`, for a string input.
`nfkc` abstracts the external `unicodedata.normalize('NFKC', ·)` table.
After stripping control characters and normalizing, the text is rejected
(empty string) if the denylist matches or if the count of single or double
quotes is odd; otherwise it is returned as is. -/
def sanitize_sql (nfkc : String → String) (s : String) : String :=
  let s1 := nfkc (stripCtrl s)
  if containsInjection s1 then ""
  else if s1.data.count '\x27' % 2 ≠ 0 || s1.data.count '"' % 2 ≠ 0 then ""
  else s1

/-- `sanitize_sql` on an `Optional[str]`: `if sql_text is None: return
None`, else the string path. -/
def sanitize_sql_opt (nfkc : String → String) : Option String → Option String
  | none => none
  | some s => some (sanitize_sql nfkc s)

/-- Python truthiness of an `Optional[str]`: `None` and `""` are falsy
(the `if not drop_sql or not select_into_sql` guard). -/
def optStrFalsy : Option String → Bool
  | none => true
  | some s => s = ""

/-- `_IDENTIFIER_RE.match(identifier)` for
`re.compile(r'^[A-Za-z_][A-Za-z0-9_]*$')`: first character a letter or
underscore, all others alphanumeric or underscore.  Python's `$` also
matches just before one trailing newline, which we model by dropping it. -/
def isValidIdentifier (s : String) : Bool :=
  let cs := if s.data.getLast? = some '\n' then s.data.dropLast else s.data
  match cs with
  | [] => false
  | c :: rest => (c.isAlpha || c = '_') && rest.all (fun d => d.isAlphanum || d = '_')

/-- `validate_sql_identifier(identifier)` from `etl/core.py`: the
identifier itself if valid, a raised `ValueError` otherwise (its `str` is
the message). -/
def validate_sql_identifier (s : String) : Except String String :=
  if isValidIdentifier s then .ok s
  else .error ("Invalid SQL identifier: " ++ s)

/-! ### The table-operations loop
(`BaseDBImporter.execute_table_operations`, `etl/base_importer.py`
lines 143-253) -/

/-- One row fetched from the `TablesToConvert` catalog query (columns
`RowID, DatabaseName, SchemaName, TableName, fConvert, ScopeRowCount,
Drop_IfExists, Select_Into`). -/
structure CatalogRow where
  rowId : Int
  databaseName : String
  schemaName : String
  tableName : String
  scopeRowCount : Option Int
  dropIfExists : Option String
  selectInto : Option String
  deriving DecidableEq, Repr

/-- The environment of the table-operations loop: the
`include_empty_tables` configuration flag, the NFKC normalization table
used by `sanitize_sql`, and the observable behaviour of
`run_sql_step_with_retry(conn, name, sql, timeout)` — `execStep name sql`
is `.ok ()` when that call returns and `.error exc` when it raises
`SQLExecutionError exc`. -/
structure LoopEnv where
  includeEmptyTables : Bool
  nfkc : String → String
  execStep : String → String → Except SQLExecutionError Unit

/-- The observable state of the table-operations loop: the
`successful_tables` / `failed_tables` tallies, the lines appended to the
run's error-log file by `log_exception_to_file`, the `conn.commit()` and
`conn.rollback()` calls made, and the `run_sql_step_with_retry`
invocations `(name, sql)` in order. -/
structure RunState where
  successful : Nat
  failed : Nat
  errorLog : List String
  commits : Nat
  rollbacks : Nat
  execCalls : List (String × String)
  deriving DecidableEq, Repr

/-- The `except Exception as row_error` handler of the per-row `try`:
log `f"Row processing error for row {idx}: {row_error}"`, count the
failure, continue. -/
def rowErrorState (st : RunState) (idx : Nat) (msg : String) : RunState :=
  { st with
    errorLog := st.errorLog ++
      ["Row processing error for row " ++ toString idx ++ ": " ++ msg],
    failed := st.failed + 1 }

/-- The `except Exception as sql_error` handler of the inner execution
`try`: `conn.rollback()`, log `f"SQL execution error for row {idx}
({full_table_name}): {sql_error}"`, count the failure, continue. -/
def sqlErrorState (st : RunState) (idx : Nat) (fullName : String)
    (exc : SQLExecutionError) : RunState :=
  { st with
    rollbacks := st.rollbacks + 1,
    errorLog := st.errorLog ++
      ["SQL execution error for row " ++ toString idx ++ " (" ++ fullName
        ++ "): " ++ exc.message],
    failed := st.failed + 1 }

/-- The body of the table-operations loop for one catalog row at
enumeration index `idx` (`enumerate(rows, 1)`), a faithful translation of
`etl/base_importer.py` lines 174-245: sanitize the two SQL texts, validate
the identifiers (a `ValueError` is caught by the row-level handler), skip
the row counting a failure if sanitization yielded a falsy value, skip it
silently if the table is empty and `include_empty_tables` is off, and
otherwise — only when the drop text is non-blank — run the drop and then
the select-into with retry, committing and counting success, or rolling
back and counting the failure on a raised `SQLExecutionError`. -/
def process_catalog_row (env : LoopEnv) (idx : Nat) (row : CatalogRow)
    (st : RunState) : RunState :=
  let drop_sql := sanitize_sql_opt env.nfkc row.dropIfExists
  let select_into_sql := sanitize_sql_opt env.nfkc row.selectInto
  match validate_sql_identifier row.tableName with
  | .error msg => rowErrorState st idx msg
  | .ok table_name =>
  match validate_sql_identifier row.schemaName with
  | .error msg => rowErrorState st idx msg
  | .ok schema_name =>
  let full_table_name := schema_name ++ "." ++ table_name
  if optStrFalsy drop_sql || optStrFalsy select_into_sql then
    { st with
      errorLog := st.errorLog ++
        ["Skipping row " ++ toString idx ++ " (" ++ full_table_name
          ++ "): SQL sanitization failed"],
      failed := st.failed + 1 }
  else if ¬ env.includeEmptyTables
      && (match row.scopeRowCount with | none => true | some n => n ≤ 0) then
    st
  else
    let d := drop_sql.getD ""
    if pyStrip d ≠ "" then
      let dropName := "Drop " ++ full_table_name
      let st1 := { st with execCalls := st.execCalls ++ [(dropName, d)] }
      match env.execStep dropName d with
      | .error exc => sqlErrorState st1 idx full_table_name exc
      | .ok _ =>
        let s := select_into_sql.getD ""
        if pyStrip s ≠ "" then
          let selName := "SelectInto " ++ full_table_name
          let st2 := { st1 with execCalls := st1.execCalls ++ [(selName, s)] }
          match env.execStep selName s with
          | .error exc => sqlErrorState st2 idx full_table_name exc
          | .ok _ =>
            { st2 with commits := st2.commits + 1,
                       successful := st2.successful + 1 }
        else
          { st1 with commits := st1.commits + 1,
                     successful := st1.successful + 1 }
    else
      st

/-- The `for idx, row in enumerate(rows, 1)` loop, started at index
`idx`: every row is processed by `process_catalog_row`, whatever happened
on the previous rows. -/
def table_ops_loop (env : LoopEnv) : Nat → List CatalogRow → RunState → RunState
  | _, [], st => st
  | idx, row :: rest, st =>
      table_ops_loop env (idx + 1) rest (process_catalog_row env idx row st)

/-- `execute_table_operations`: `fetch` is the outcome of the catalog
query (`cursor.execute` + `fetchall`).  If the fetch raises, the outer
`except Exception as query_error` handler logs `f"Fatal query error:
{query_error}"` and re-raises, aborting the phase; otherwise the loop runs
to completion over all fetched rows. -/
def execute_table_operations (env : LoopEnv)
    (fetch : Except Err (List CatalogRow)) (st : RunState) :
    Except (Err × RunState) RunState :=
  match fetch with
  | .error e =>
      .error (e, { st with
        errorLog := st.errorLog ++ ["Fatal query error: " ++ e.msg] })
  | .ok rows => .ok (table_ops_loop env 1 rows st)

/-! ### The primary-key/constraint loop
(`BaseDBImporter.create_primary_keys`, `etl/base_importer.py`
lines 255-329) -/

/-- A row of the `PrimaryKeyScripts` catalog table. -/
structure PKScriptCat where
  databaseName : String
  schemaName : String
  tableName : String
  scriptType : String
  script : String
  deriving DecidableEq, Repr

/-- A row of the `TablesToConvert` catalog table (the columns the PK query
touches). -/
structure TableCat where
  schemaName : String
  tableName : String
  scopeRowCount : Option Int
  fConvert : Int
  deriving DecidableEq, Repr

/-- A row fetched by the PK/constraint catalog query. -/
structure PKRow where
  typey : Nat
  scopeRowCount : Option Int
  databaseName : String
  schemaName : String
  tableName : String
  script : String
  fConvert : Int
  deriving DecidableEq, Repr

/-- `CTE_PKS`: the `NOT_NULL` rows tagged `TYPEY = 1` unioned with the
`PK` rows tagged `TYPEY = 2`.  `UNION` (not `UNION ALL`) removes duplicate
tuples; within each branch `ScriptType` is constant, and the two branches
carry different `TYPEY`, so deduplicating the tagged pairs is the same as
deduplicating the selected tuples. -/
def cte_pks (scripts : List PKScriptCat) : List (Nat × PKScriptCat) :=
  (((scripts.filter (fun (s : PKScriptCat) => s.scriptType = "NOT_NULL")).map
      (fun s => (1, s)))
    ++ ((scripts.filter (fun (s : PKScriptCat) => s.scriptType = "PK")).map
      (fun s => (2, s)))).dedup

/-- Three-way comparison of natural numbers. -/
def cmpNat (a b : Nat) : Ordering :=
  if a < b then .lt else if b < a then .gt else .eq

/-- Three-way comparison of two strings seen as lists of code points — a
total string order, modelling the column collation used by the query's
`ORDER BY` (the claims depend only on it being a total order). -/
def cmpChars : List Char → List Char → Ordering
  | [], [] => .eq
  | [], _ :: _ => .lt
  | _ :: _, [] => .gt
  | a :: as, b :: bs =>
    if a.toNat < b.toNat then .lt
    else if b.toNat < a.toNat then .gt
    else cmpChars as bs

/-- The sort key comparison of `ORDER BY S.SCHEMANAME, S.TABLENAME,
S.TYPEY`: lexicographic on (schema name, table name, rank). -/
def cmpPKRow (a b : PKRow) : Ordering :=
  match cmpChars a.schemaName.data b.schemaName.data with
  | .lt => .lt
  | .gt => .gt
  | .eq =>
    match cmpChars a.tableName.data b.tableName.data with
    | .lt => .lt
    | .gt => .gt
    | .eq => cmpNat a.typey b.typey

/-- The row order produced by the query's `ORDER BY` clause. -/
def pkRowLE (a b : PKRow) : Prop :=
  cmpPKRow a b ≠ .gt

instance : DecidableRel pkRowLE :=
  fun a b => inferInstanceAs (Decidable (cmpPKRow a b ≠ .gt))

/-- The PK/constraint catalog query of `create_primary_keys`
(lines 280-299): `CTE_PKS` inner-joined to `TablesToConvert` on
`(SchemaName, TableName)` with `fConvert = 1`, `Script` rewritten by
`REPLACE(S.Script, 'FLAG NOT NULL', 'BIT NOT NULL')`, ordered by
`(SCHEMANAME, TABLENAME, TYPEY)`. -/
def pk_query_rows (scripts : List PKScriptCat) (tables : List TableCat) :
    List PKRow :=
  List.insertionSort pkRowLE
    (((cte_pks scripts).map (fun ts =>
      (tables.filter (fun t => t.fConvert = 1 && t.schemaName = ts.2.schemaName
          && t.tableName = ts.2.tableName)).map (fun t =>
        { typey := ts.1, scopeRowCount := t.scopeRowCount,
          databaseName := ts.2.databaseName, schemaName := ts.2.schemaName,
          tableName := ts.2.tableName,
          script := pyReplace ts.2.script "FLAG NOT NULL" "BIT NOT NULL",
          fConvert := t.fConvert }))).flatten)

/-- The row gate of the PK loop, line 312 of `etl/base_importer.py`:
`if (scope_row_count != 0 or scope_row_count is not None) or
self.config['include_empty_tables']:` — the script is executed exactly
when this is true.  (In Python, `None != 0` is `True`.) -/
def pk_row_gate (scopeRowCount : Option Int) (includeEmpty : Bool) : Bool :=
  ((match scopeRowCount with | none => true | some n => n ≠ 0)
    || scopeRowCount.isSome) || includeEmpty

/-- The rows whose script the PK loop submits to
`run_sql_step_with_retry`, in loop order: each fetched row in turn, with
its identifiers validated (a `ValueError` there escapes the loop and
aborts it), submitted exactly when `pk_row_gate` holds.  An execution
failure is caught per row (rollback, log, continue), so it does not remove
later rows. -/
def pk_submissions (includeEmpty : Bool) : List PKRow → List PKRow
  | [] => []
  | r :: rest =>
    match validate_sql_identifier r.schemaName,
          validate_sql_identifier r.tableName with
    | .ok _, .ok _ =>
        if pk_row_gate r.scopeRowCount includeEmpty then
          r :: pk_submissions includeEmpty rest
        else
          pk_submissions includeEmpty rest
    | _, _ => []

/-- The submissions of one full `create_primary_keys` constraint phase:
the rows fetched by the catalog query, run through the loop's gate. -/
def pk_submitted (scripts : List PKScriptCat) (tables : List TableCat)
    (includeEmpty : Bool) : List PKRow :=
  pk_submissions includeEmpty (pk_query_rows scripts tables)

/-! ### `transaction_scope` -/

/-- A connection as `transaction_scope` observes it: the autocommit flag
and the number of `commit()` / `rollback()` calls made on it (the
observables of `tests/test_etl_helpers.py`). -/
structure TConn where
  autocommit : Bool
  commits : Nat
  rollbacks : Nat
  deriving DecidableEq, Repr

/-- `conn.commit()`. -/
def commitConn (c : TConn) : TConn :=
  { c with commits := c.commits + 1 }

/-- `conn.rollback()`. -/
def rollbackConn (c : TConn) : TConn :=
  { c with rollbacks := c.rollbacks + 1 }

/-- Modelled from the spec: `transaction_scope(conn)` is imported by
`etl/base_importer.py` from `utils.etl_helpers` and exercised by
`tests/test_etl_helpers.py`, but its definition is absent from the
provided sources.  Per the spec it is a scoped-acquisition wrapper that
saves the prior autocommit mode, disables autocommit on entry, runs the
body, commits on normal exit, rolls back and re-raises on any exception,
and unconditionally restores the prior autocommit mode.  `body` maps the
connection it receives to the exception outcome of the scope's body and
the connection state it leaves behind. -/
def transaction_scope (body : TConn → Except Err Unit × TConn)
    (conn : TConn) : Except Err Unit × TConn :=
  let prior := conn.autocommit
  match body { conn with autocommit := false } with
  | (.ok _, c2) => (.ok (), { commitConn c2 with autocommit := prior })
  | (.error e, c2) => (.error e, { rollbackConn c2 with autocommit := prior })

/-! ### Concrete drivers, connections, bodies and catalog contents,
used to evaluate the theorems below on explicit inputs. -/

/-- A driver that fails the first two attempts with a transient
`pyodbc.Error` and succeeds on the third (the shape of
`test_run_sql_step_with_retry_retries`). -/
def exFailTwice : Nat → ExecOutcome :=
  fun n => if n < 2 then .err ⟨true, "boom"⟩ else .ok (some ["row"])

/-- A driver whose every attempt fails with a transient `pyodbc.Error`. -/
def exAlwaysFail : Nat → ExecOutcome :=
  fun _ => .err ⟨true, "boom"⟩

/-- A driver whose every attempt fails with an error that is not a
`pyodbc.Error`. -/
def exNonTransient : Nat → ExecOutcome :=
  fun _ => .err ⟨false, "fatal"⟩

/-- A statement executor that raises exactly on the literal statement
`FAIL` (the shape of `test_run_sql_script_failure`). -/
def exFailOnFAIL : String → Except Err Unit :=
  fun s => if s = "FAIL" then .error ⟨true, "boom"⟩ else .ok ()

/-- A statement executor that always succeeds. -/
def exAllOk : String → Except Err Unit :=
  fun _ => .ok ()

/-- A statement executor that raises a raw (non-`SQLExecutionError`)
exception on every statement, including `SET LOCK_TIMEOUT`. -/
def exNoLock : String → Except Err Unit :=
  fun _ => .error ⟨false, "lockfail"⟩

/-- A table-operations environment whose step executor raises exactly on
the SQL texts `DROP BAD` and `SELECT BAD`. -/
def envC1 : LoopEnv :=
  { includeEmptyTables := false, nfkc := id,
    execStep := fun name sql =>
      if sql = "DROP BAD" || sql = "SELECT BAD" then
        .error ⟨sql, ⟨true, "boom"⟩, some name⟩
      else .ok () }

/-- A catalog row whose drop statement fails under `envC1`. -/
def rowDropFails : CatalogRow :=
  { rowId := 1, databaseName := "DB", schemaName := "dbo",
    tableName := "TabA", scopeRowCount := some 5,
    dropIfExists := some "DROP BAD", selectInto := some "SELECT 1 INTO A" }

/-- A catalog row whose drop succeeds and whose select-into fails under
`envC1`. -/
def rowSelectFails : CatalogRow :=
  { rowId := 2, databaseName := "DB", schemaName := "dbo",
    tableName := "TabB", scopeRowCount := some 3,
    dropIfExists := some "DROP B", selectInto := some "SELECT BAD" }

/-- A catalog row that processes cleanly under `envC1`. -/
def rowClean : CatalogRow :=
  { rowId := 3, databaseName := "DB", schemaName := "dbo",
    tableName := "TabC", scopeRowCount := some 7,
    dropIfExists := some "DROP C", selectInto := some "SELECT 1 INTO C" }

/-- A `PrimaryKeyScripts` catalog holding a PK script and a NOT_NULL
script for the same table (the PK script listed first). -/
def pkScriptsEx : List PKScriptCat :=
  [ { databaseName := "DB", schemaName := "dbo", tableName := "T1",
      scriptType := "PK", script := "ALTER TABLE T1 ADD PK" },
    { databaseName := "DB", schemaName := "dbo", tableName := "T1",
      scriptType := "NOT_NULL", script := "ALTER TABLE T1 COL FLAG NOT NULL" } ]

/-- A `TablesToConvert` catalog with the matching in-scope table. -/
def pkTablesEx : List TableCat :=
  [ { schemaName := "dbo", tableName := "T1", scopeRowCount := some 5,
      fConvert := 1 } ]

/-- A fetched PK-script row for an empty table (`ScopeRowCount` NULL). -/
def pkRowEmptyEx : PKRow :=
  { typey := 2, scopeRowCount := none, databaseName := "DB",
    schemaName := "dbo", tableName := "T1",
    script := "ALTER TABLE T1 ADD PK", fConvert := 1 }

/-- A scope body that returns normally, leaving the connection as it
found it. -/
def bodyOk : TConn → Except Err Unit × TConn :=
  fun c => (.ok (), c)

/-- A scope body that raises, leaving the connection as it found it. -/
def bodyRaise : TConn → Except Err Unit × TConn :=
  fun c => (.error ⟨false, "boom"⟩, c)

end EJ

namespace EJ

/-! ## Equation lemmas for the retry loop -/

/-- Loop counter at or past `max_retries`: the `for` loop body does not
run and the function falls through, returning `None`. -/
theorem retryLoop_stop (b : Nat → ExecOutcome) (name sql : String)
    {m a : Nat} (h : ¬ a < m) (c : Counts) :
    retryLoop b name sql m a c =
      { result := .ok none, attemptsMade := 0, sleeps := [], counts := c } := by
  unfold retryLoop
  rw [dif_neg h]

/-- A successful attempt returns its results at once. -/
theorem retryLoop_ok (b : Nat → ExecOutcome) (name sql : String)
    {m a : Nat} (h : a < m) {r : Option (List String)} (hb : b a = .ok r)
    (c : Counts) :
    retryLoop b name sql m a c =
      { result := .ok r, attemptsMade := 1, sleeps := [],
        counts := record_success c } := by
  unfold retryLoop
  rw [dif_pos h, hb]
  rfl

/-- A failure whose cause is not a `pyodbc.Error` re-raises at once. -/
theorem retryLoop_nonpy (b : Nat → ExecOutcome) (name sql : String)
    {m a : Nat} (h : a < m) {e : Err} (hb : b a = .err e)
    (he : e.isPyodbcError = false) (c : Counts) :
    retryLoop b name sql m a c =
      { result := .error ⟨sql, e, some name⟩, attemptsMade := 1, sleeps := [],
        counts := record_failure c } := by
  unfold retryLoop
  rw [dif_pos h, hb]
  simp [run_sql_step, he]

/-- A transient failure on the last attempt (`attempt == max_retries - 1`)
re-raises. -/
theorem retryLoop_last (b : Nat → ExecOutcome) (name sql : String)
    {m a : Nat} (h : a < m) {e : Err} (hb : b a = .err e)
    (he : e.isPyodbcError = true) (hl : a = m - 1) (c : Counts) :
    retryLoop b name sql m a c =
      { result := .error ⟨sql, e, some name⟩, attemptsMade := 1, sleeps := [],
        counts := record_failure c } := by
  unfold retryLoop
  rw [dif_pos h, hb]
  simp [run_sql_step, he, hl]

/-- A transient failure before the last attempt sleeps `2 ** attempt`
seconds and continues with the next attempt. -/
theorem retryLoop_cont (b : Nat → ExecOutcome) (name sql : String)
    {m a : Nat} (h : a < m) {e : Err} (hb : b a = .err e)
    (he : e.isPyodbcError = true) (hl : a ≠ m - 1) (c : Counts) :
    retryLoop b name sql m a c =
      { result := (retryLoop b name sql m (a + 1) (record_failure c)).result,
        attemptsMade :=
          (retryLoop b name sql m (a + 1) (record_failure c)).attemptsMade + 1,
        sleeps :=
          2 ^ a :: (retryLoop b name sql m (a + 1) (record_failure c)).sleeps,
        counts := (retryLoop b name sql m (a + 1) (record_failure c)).counts } := by
  conv_lhs => unfold retryLoop
  rw [dif_pos h, hb]
  simp [run_sql_step, he, hl]

/-- The loop never performs more than `max_retries - attempt` step
executions (`k` is auxiliary induction fuel). -/
theorem retryLoop_attempts_le (k : Nat) :
    ∀ (b : Nat → ExecOutcome) (name sql : String) (m a : Nat) (c : Counts),
      m - a ≤ k →
      (retryLoop b name sql m a c).attemptsMade ≤ m - a := by
  induction k with
  | zero =>
    intro b name sql m a c hk
    have hma : ¬ a < m := by omega
    rw [retryLoop_stop b name sql hma c]
    dsimp only
    omega
  | succ k ih =>
    intro b name sql m a c hk
    by_cases hma : a < m
    · cases hb : b a with
      | ok r =>
        rw [retryLoop_ok b name sql hma hb c]
        dsimp only
        omega
      | err e =>
        cases he : e.isPyodbcError with
        | false =>
          rw [retryLoop_nonpy b name sql hma hb he c]
          dsimp only
          omega
        | true =>
          by_cases hl : a = m - 1
          · rw [retryLoop_last b name sql hma hb he hl c]
            dsimp only
            omega
          · rw [retryLoop_cont b name sql hma hb he hl c]
            have := ih b name sql m (a + 1) (record_failure c) (by omega)
            dsimp only
            omega
    · rw [retryLoop_stop b name sql hma c]
      dsimp only
      omega

/-- If the `k` attempts starting at loop counter `a` fail transiently and
the attempt at `a + k` succeeds (all within the ceiling), the loop returns
that success after exactly `k + 1` executions, having slept
`2^a, 2^(a+1), …, 2^(a+k-1)` seconds. -/
theorem retryLoop_transient_then_ok (k : Nat) :
    ∀ (b : Nat → ExecOutcome) (name sql : String) (m a : Nat) (c : Counts)
      (r : Option (List String)),
      a + k < m →
      (∀ i, i < k → ∃ e, b (a + i) = .err e ∧ e.isPyodbcError = true) →
      b (a + k) = .ok r →
      retryLoop b name sql m a c =
        { result := .ok r, attemptsMade := k + 1,
          sleeps := (List.range k).map (fun i => 2 ^ (a + i)),
          counts := record_success (record_failure^[k] c) } := by
  induction k with
  | zero =>
    intro b name sql m a c r hm _ hok
    rw [retryLoop_ok b name sql (by omega) (by simpa using hok) c]
    simp
  | succ k ih =>
    intro b name sql m a c r hm hfail hok
    obtain ⟨e, hbe, hpy⟩ := hfail 0 (Nat.succ_pos k)
    simp only [Nat.add_zero] at hbe
    have hma : a < m := by omega
    have hne : a ≠ m - 1 := by omega
    rw [retryLoop_cont b name sql hma hbe hpy hne c]
    have ih2 :=
      ih b name sql m (a + 1) (record_failure c) r (by omega)
        (fun i hi => by
          have := hfail (i + 1) (by omega)
          simpa [Nat.add_assoc, Nat.add_comm 1 i] using this)
        (by simpa [Nat.add_assoc, Nat.add_comm 1 k] using hok)
    rw [ih2]
    dsimp only
    simp only [RetryTrace.mk.injEq]
    refine ⟨trivial, trivial, ?_, by rw [Function.iterate_succ_apply]⟩
    rw [List.range_succ_eq_map, List.map_cons, List.map_map]
    refine congrArg₂ List.cons (by simp) ?_
    refine List.map_congr_left (fun i _ => ?_)
    show 2 ^ (a + 1 + i) = 2 ^ (a + (i + 1))
    have h : a + 1 + i = a + (i + 1) := by omega
    rw [h]

/-- If every attempt from loop counter `a` to the last one fails with the
same transient error, the loop re-raises that error after exactly `m - a`
executions. -/
theorem retryLoop_all_transient_fail (k : Nat) :
    ∀ (b : Nat → ExecOutcome) (name sql : String) (m a : Nat) (c : Counts)
      (e : Err),
      m - a = k + 1 →
      (∀ i, a ≤ i → i < m → b i = .err e) →
      e.isPyodbcError = true →
      (retryLoop b name sql m a c).result = .error ⟨sql, e, some name⟩ ∧
        (retryLoop b name sql m a c).attemptsMade = m - a := by
  induction k with
  | zero =>
    intro b name sql m a c e hk hfail hpy
    have hbe : b a = .err e := hfail a (Nat.le_refl a) (by omega)
    have hma : a < m := by omega
    have hl : a = m - 1 := by omega
    rw [retryLoop_last b name sql hma hbe hpy hl c]
    exact ⟨rfl, by dsimp only; omega⟩
  | succ k ih =>
    intro b name sql m a c e hk hfail hpy
    have hbe : b a = .err e := hfail a (Nat.le_refl a) (by omega)
    have hma : a < m := by omega
    have hne : a ≠ m - 1 := by omega
    rw [retryLoop_cont b name sql hma hbe hpy hne c]
    obtain ⟨ih1, ih2⟩ := ih b name sql m (a + 1) (record_failure c) e (by omega)
      (fun i h1 h2 => hfail i (by omega) h2) hpy
    refine ⟨by dsimp only; exact ih1, ?_⟩
    dsimp only
    omega

/-! ## Claims about `run_sql_step_with_retry` -/

/-- C10: for every connection behaviour and SQL text,
`run_sql_step_with_retry` with `max_retries = 0` returns `None` without
attempting to execute the statement even once and without raising — the
retry loop body never runs. -/
theorem claim_C10_zero_retries_returns_none (behavior : Nat → ExecOutcome)
    (name sql : String) (counts : Counts) :
    run_sql_step_with_retry behavior name sql 0 counts =
      { result := .ok none, attemptsMade := 0, sleeps := [],
        counts := counts } := by
  unfold run_sql_step_with_retry
  exact retryLoop_stop behavior name sql (by omega) counts

/-- C4: `run_sql_step_with_retry` returns the successful result when some
attempt succeeds within the retry ceiling (after any number of transient
failures), re-raises the `SQLExecutionError` when all `max_retries`
attempts fail, and never performs more than `max_retries` executions. -/
theorem claim_C4_retry_ceiling (b1 b2 : Nat → ExecOutcome) (name sql : String)
    (m k : Nat) (r : Option (List String)) (e : Err) (c1 c2 : Counts)
    (hk : k < m)
    (hfails : ∀ i, i < k → ∃ e2, b1 i = .err e2 ∧ e2.isPyodbcError = true)
    (hsucc : b1 k = .ok r)
    (hpy : e.isPyodbcError = true)
    (hallfail : ∀ i, i < m → b2 i = .err e) :
    (run_sql_step_with_retry b1 name sql m c1).result = .ok r
      ∧ (run_sql_step_with_retry b2 name sql m c2).result =
          .error ⟨sql, e, some name⟩
      ∧ ∀ (b : Nat → ExecOutcome) (c : Counts),
          (run_sql_step_with_retry b name sql m c).attemptsMade ≤ m := by
  refine ⟨?_, ?_, ?_⟩
  · unfold run_sql_step_with_retry
    rw [retryLoop_transient_then_ok k b1 name sql m 0 c1 r (by omega)
      (by simpa using hfails) (by simpa using hsucc)]
  · unfold run_sql_step_with_retry
    have hm1 : m - 0 = (m - 1) + 1 := by omega
    exact (retryLoop_all_transient_fail (m - 1) b2 name sql m 0 c2 e hm1
      (fun i _ h2 => hallfail i h2) hpy).1
  · intro b c
    unfold run_sql_step_with_retry
    have := retryLoop_attempts_le m b name sql m 0 c (by omega)
    omega

/-- Witness for C4 at `max_retries = 3`: a driver failing twice
transiently then succeeding returns the rows; a driver failing every
attempt re-raises; at most 3 executions happen. -/
theorem claim_C4_retry_ceiling_witness :
    (run_sql_step_with_retry exFailTwice "t" "S" 3 ⟨0, 0⟩).result =
        .ok (some ["row"])
      ∧ (run_sql_step_with_retry exAlwaysFail "t" "S" 3 ⟨0, 0⟩).result =
          .error ⟨"S", ⟨true, "boom"⟩, some "t"⟩
      ∧ (run_sql_step_with_retry exFailTwice "t" "S" 3 ⟨0, 0⟩).attemptsMade
          ≤ 3 := by
  have h := claim_C4_retry_ceiling exFailTwice exAlwaysFail "t" "S" 3 2
    (some ["row"]) ⟨true, "boom"⟩ ⟨0, 0⟩ ⟨0, 0⟩ (by omega)
    (fun i hi => ⟨⟨true, "boom"⟩, by
      have h2 : i = 0 ∨ i = 1 := by omega
      rcases h2 with rfl | rfl <;> exact ⟨rfl, rfl⟩⟩)
    rfl rfl (fun i _ => rfl)
  exact ⟨h.1, h.2.1, h.2.2 exFailTwice ⟨0, 0⟩⟩

/-- C3: a failure whose underlying cause is not a `pyodbc.Error` is
re-raised at once with no further attempts and no sleeping, while
transient failures are retried with sleeps of `2^attempt` seconds
starting at attempt 0. -/
theorem claim_C3_transient_only_retry (b1 b2 : Nat → ExecOutcome)
    (name sql : String) (m k : Nat) (e : Err) (r : Option (List String))
    (c1 c2 : Counts)
    (hb1 : b1 0 = .err e) (hnpy : e.isPyodbcError = false) (hm : 0 < m)
    (hk : k < m)
    (hfails : ∀ i, i < k → ∃ e2, b2 i = .err e2 ∧ e2.isPyodbcError = true)
    (hsucc : b2 k = .ok r) :
    ((run_sql_step_with_retry b1 name sql m c1).result =
        .error ⟨sql, e, some name⟩
      ∧ (run_sql_step_with_retry b1 name sql m c1).attemptsMade = 1
      ∧ (run_sql_step_with_retry b1 name sql m c1).sleeps = [])
    ∧ (run_sql_step_with_retry b2 name sql m c2).sleeps =
        (List.range k).map (fun i => 2 ^ i) := by
  constructor
  · unfold run_sql_step_with_retry
    rw [retryLoop_nonpy b1 name sql hm hb1 hnpy c1]
    exact ⟨rfl, rfl, rfl⟩
  · unfold run_sql_step_with_retry
    rw [retryLoop_transient_then_ok k b2 name sql m 0 c2 r (by omega)
      (by simpa using hfails) (by simpa using hsucc)]
    dsimp only
    simp

/-- Witness for C3: a non-transient failure stops after one attempt with
no sleeps; two transient failures then success sleep 1 then 2 seconds. -/
theorem claim_C3_transient_only_retry_witness :
    ((run_sql_step_with_retry exNonTransient "t" "S" 3 ⟨0, 0⟩).result =
        .error ⟨"S", ⟨false, "fatal"⟩, some "t"⟩
      ∧ (run_sql_step_with_retry exNonTransient "t" "S" 3 ⟨0, 0⟩).attemptsMade
          = 1
      ∧ (run_sql_step_with_retry exNonTransient "t" "S" 3 ⟨0, 0⟩).sleeps = [])
    ∧ (run_sql_step_with_retry exFailTwice "t" "S" 3 ⟨0, 0⟩).sleeps =
        (List.range 2).map (fun i => 2 ^ i) :=
  claim_C3_transient_only_retry exNonTransient exFailTwice "t" "S" 3 2
    ⟨false, "fatal"⟩ (some ["row"]) ⟨0, 0⟩ ⟨0, 0⟩ rfl rfl (by omega) (by omega)
    (fun i hi => ⟨⟨true, "boom"⟩, by
      have h2 : i = 0 ∨ i = 1 := by omega
      rcases h2 with rfl | rfl <;> exact ⟨rfl, rfl⟩⟩)
    rfl

/-! ## The statement loop of `run_sql_script` -/

/-- If every executable (non-comment) fragment succeeds, the loop executes
exactly those fragments in order, committing once after each. -/
theorem script_loop_all_ok (execStmt : String → Except Err Unit) (name : String) :
    ∀ (stmts ex0 : List String) (n0 : Nat),
      (∀ f ∈ stmts, ¬ startsWithChars ['-', '-'] f → execStmt f = .ok ()) →
      script_loop execStmt name stmts ex0 n0 =
        (.ok (),
         ex0 ++ stmts.filter (fun f => ¬ startsWithChars ['-', '-'] f),
         n0 + (stmts.filter (fun f => ¬ startsWithChars ['-', '-'] f)).length) := by
  intro stmts
  induction stmts with
  | nil => intro ex0 n0 _; simp [script_loop]
  | cons s rest ih =>
    intro ex0 n0 h
    by_cases hs : startsWithChars ['-', '-'] s
    · rw [script_loop, if_pos hs]
      rw [ih ex0 n0 (fun f hf => h f (List.mem_cons_of_mem s hf))]
      simp [List.filter_cons, hs]
    · rw [script_loop, if_neg hs, h s (List.mem_cons_self s rest) hs]
      rw [ih (ex0 ++ [s]) (n0 + 1) (fun f hf => h f (List.mem_cons_of_mem s hf))]
      simp [List.filter_cons, hs]
      omega

/-- If the executable fragments before `f` succeed and `f` fails, the loop
stops at `f`, having executed (and committed) exactly the executable
fragments before it, and raises `SQLExecutionError` carrying exactly the
fragment `f`. -/
theorem script_loop_first_fail (execStmt : String → Except Err Unit)
    (name : String) :
    ∀ (l1 : List String) (f : String) (l2 ex0 : List String) (n0 : Nat)
      (e : Err),
      (∀ g ∈ l1, ¬ startsWithChars ['-', '-'] g → execStmt g = .ok ()) →
      ¬ startsWithChars ['-', '-'] f →
      execStmt f = .error e →
      script_loop execStmt name (l1 ++ f :: l2) ex0 n0 =
        (.error ⟨f, e, some name⟩,
         ex0 ++ (l1.filter (fun g => ¬ startsWithChars ['-', '-'] g)) ++ [f],
         n0 + (l1.filter (fun g => ¬ startsWithChars ['-', '-'] g)).length) := by
  intro l1
  induction l1 with
  | nil =>
    intro f l2 ex0 n0 e _ hf hfe
    rw [List.nil_append, script_loop, if_neg hf, hfe]
    simp
  | cons s rest ih =>
    intro f l2 ex0 n0 e h hf hfe
    by_cases hs : startsWithChars ['-', '-'] s
    · rw [List.cons_append, script_loop, if_pos hs]
      rw [ih f l2 ex0 n0 e (fun g hg => h g (List.mem_cons_of_mem s hg)) hf hfe]
      simp [List.filter_cons, hs]
    · rw [List.cons_append, script_loop, if_neg hs,
        h s (List.mem_cons_self s rest) hs]
      rw [ih f l2 (ex0 ++ [s]) (n0 + 1) e
        (fun g hg => h g (List.mem_cons_of_mem s hg)) hf hfe]
      simp [List.filter_cons, hs]
      omega

/-! ## Claims about `run_sql_script` -/

/-- C5: `run_sql_script` splits the script on the batch separator and then
on statement terminators, skips blank and comment-only fragments, executes
the remaining fragments in order with a commit after each, and stops at
the first failing fragment, raising `SQLExecutionError` whose captured
statement text is exactly that fragment — not the whole script. -/
theorem claim_C5_script_stops_at_first_failing_fragment
    (execStmt execStmt2 : String → Except Err Unit)
    (name name2 sql sql2 : String) (timeout timeout2 : Nat) (c c2 : Counts)
    (l1 l2 : List String) (f : String) (e : Err)
    (hlock : execStmt ("SET LOCK_TIMEOUT " ++ toString (timeout * 1000)) = .ok ())
    (hsplit : script_fragments sql = l1 ++ f :: l2)
    (hl1 : ∀ g ∈ l1, ¬ startsWithChars ['-', '-'] g → execStmt g = .ok ())
    (hf : ¬ startsWithChars ['-', '-'] f)
    (hfe : execStmt f = .error e)
    (hlock2 :
      execStmt2 ("SET LOCK_TIMEOUT " ++ toString (timeout2 * 1000)) = .ok ())
    (hall2 : ∀ g ∈ script_fragments sql2,
      ¬ startsWithChars ['-', '-'] g → execStmt2 g = .ok ()) :
    ((run_sql_script execStmt name sql timeout c).result =
        .error ⟨f, e, some name⟩
      ∧ (run_sql_script execStmt name sql timeout c).executed =
          ("SET LOCK_TIMEOUT " ++ toString (timeout * 1000))
            :: ((l1.filter (fun g => ¬ startsWithChars ['-', '-'] g)) ++ [f])
      ∧ (run_sql_script execStmt name sql timeout c).commits =
          (l1.filter (fun g => ¬ startsWithChars ['-', '-'] g)).length)
    ∧ ((run_sql_script execStmt2 name2 sql2 timeout2 c2).result = .ok ()
      ∧ (run_sql_script execStmt2 name2 sql2 timeout2 c2).executed =
          ("SET LOCK_TIMEOUT " ++ toString (timeout2 * 1000))
            :: script_executable_fragments sql2
      ∧ (run_sql_script execStmt2 name2 sql2 timeout2 c2).commits =
          (script_executable_fragments sql2).length) := by
  constructor
  · unfold run_sql_script
    simp only []
    rw [hlock, hsplit,
      script_loop_first_fail execStmt name l1 f l2
        ["SET LOCK_TIMEOUT " ++ toString (timeout * 1000)] 0 e hl1 hf hfe]
    exact ⟨rfl, by simp, by simp⟩
  · unfold run_sql_script
    simp only []
    rw [hlock2,
      script_loop_all_ok execStmt2 name2 (script_fragments sql2)
        ["SET LOCK_TIMEOUT " ++ toString (timeout2 * 1000)] 0 hall2]
    exact ⟨rfl, by simp [script_executable_fragments], by
      simp [script_executable_fragments]⟩

/-- Witness for C5: the script `SELECT 1; FAIL; SELECT 2` against an
executor that errors only on the literal statement `FAIL` raises an error
carrying exactly `FAIL`, after executing and committing `SELECT 1`. -/
theorem claim_C5_script_stops_at_first_failing_fragment_witness :
    ((run_sql_script exFailOnFAIL "t" "SELECT 1; FAIL; SELECT 2" 300 ⟨0, 0⟩).result =
        .error ⟨"FAIL", ⟨true, "boom"⟩, some "t"⟩
      ∧ (run_sql_script exFailOnFAIL "t" "SELECT 1; FAIL; SELECT 2" 300 ⟨0, 0⟩).executed =
          "SET LOCK_TIMEOUT 300000" :: (["SELECT 1"] ++ ["FAIL"])
      ∧ (run_sql_script exFailOnFAIL "t" "SELECT 1; FAIL; SELECT 2" 300 ⟨0, 0⟩).commits = 1)
    ∧ ((run_sql_script exAllOk "t2" "A;\nGO\n-- c;\nB" 300 ⟨0, 0⟩).result = .ok ()
      ∧ (run_sql_script exAllOk "t2" "A;\nGO\n-- c;\nB" 300 ⟨0, 0⟩).executed =
          "SET LOCK_TIMEOUT 300000"
            :: script_executable_fragments "A;\nGO\n-- c;\nB"
      ∧ (run_sql_script exAllOk "t2" "A;\nGO\n-- c;\nB" 300 ⟨0, 0⟩).commits =
          (script_executable_fragments "A;\nGO\n-- c;\nB").length) := by
  have h := claim_C5_script_stops_at_first_failing_fragment
    exFailOnFAIL exAllOk "t" "t2" "SELECT 1; FAIL; SELECT 2" "A;\nGO\n-- c;\nB"
    300 300 ⟨0, 0⟩ ⟨0, 0⟩ ["SELECT 1"] ["SELECT 2"] "FAIL" ⟨true, "boom"⟩
    rfl rfl
    (by
      intro g hg _
      have hg2 : g = "SELECT 1" := by simpa using hg
      subst hg2; rfl)
    (by intro h2; cases h2)
    rfl rfl
    (fun g _ _ => rfl)
  have hfil : (["SELECT 1"].filter
      (fun g => ¬ startsWithChars ['-', '-'] g)) = ["SELECT 1"] := rfl
  refine ⟨⟨h.1.1, ?_, ?_⟩, h.2⟩
  · rw [h.1.2.1, hfil]
    rfl
  · rw [h.1.2.2, hfil]
    rfl

/-- C7 counterexample: a statement failing inside `run_sql_script` does
not increment the failure tally — starting from zeroed counters, the
script `SELECT 1; FAIL; SELECT 2` fails on `FAIL` yet leaves the counters
at zero. -/
theorem claim_C7_counterexample :
    (run_sql_script exFailOnFAIL "t" "SELECT 1; FAIL; SELECT 2" 300
        ⟨0, 0⟩).result = .error ⟨"FAIL", ⟨true, "boom"⟩, some "t"⟩
      ∧ (run_sql_script exFailOnFAIL "t" "SELECT 1; FAIL; SELECT 2" 300
          ⟨0, 0⟩).counts = ⟨0, 0⟩ :=
  ⟨rfl, rfl⟩

/-- C7 as amended: `run_sql_step` increments exactly one counter per call
(success on success, failure on failure); `run_sql_script` counts per
script, not per statement — one success increment when the whole script
succeeds, no increment at all when a statement inside it fails (the
`SQLExecutionError` is re-raised uncounted), and one failure increment
only when a non-`SQLExecutionError` exception escapes (the `SET
LOCK_TIMEOUT` command failing). -/
theorem claim_C7_amended_counter_discipline
    (execStmt execStmt2 execStmt3 : String → Except Err Unit)
    (name name2 name3 sql sql2 sql3 : String)
    (timeout timeout2 timeout3 : Nat) (c c2 c3 : Counts)
    (l1 l2 : List String) (f : String) (e e3 : Err)
    (hlock : execStmt ("SET LOCK_TIMEOUT " ++ toString (timeout * 1000)) = .ok ())
    (hsplit : script_fragments sql = l1 ++ f :: l2)
    (hl1 : ∀ g ∈ l1, ¬ startsWithChars ['-', '-'] g → execStmt g = .ok ())
    (hf : ¬ startsWithChars ['-', '-'] f)
    (hfe : execStmt f = .error e)
    (hlock2 :
      execStmt2 ("SET LOCK_TIMEOUT " ++ toString (timeout2 * 1000)) = .ok ())
    (hall2 : ∀ g ∈ script_fragments sql2,
      ¬ startsWithChars ['-', '-'] g → execStmt2 g = .ok ())
    (hlock3 :
      execStmt3 ("SET LOCK_TIMEOUT " ++ toString (timeout3 * 1000)) = .error e3) :
    (∀ (r : Option (List String)) (nm sq : String) (c0 : Counts),
        (run_sql_step (.ok r) nm sq c0).2 = record_success c0)
    ∧ (∀ (e0 : Err) (nm sq : String) (c0 : Counts),
        (run_sql_step (.err e0) nm sq c0).2 = record_failure c0)
    ∧ (run_sql_script execStmt name sql timeout c).counts = c
    ∧ (run_sql_script execStmt2 name2 sql2 timeout2 c2).counts =
        record_success c2
    ∧ (run_sql_script execStmt3 name3 sql3 timeout3 c3).counts =
        record_failure c3 := by
  refine ⟨fun _ _ _ _ => rfl, fun _ _ _ _ => rfl, ?_, ?_, ?_⟩
  · unfold run_sql_script
    simp only []
    rw [hlock, hsplit,
      script_loop_first_fail execStmt name l1 f l2
        ["SET LOCK_TIMEOUT " ++ toString (timeout * 1000)] 0 e hl1 hf hfe]
  · unfold run_sql_script
    simp only []
    rw [hlock2,
      script_loop_all_ok execStmt2 name2 (script_fragments sql2)
        ["SET LOCK_TIMEOUT " ++ toString (timeout2 * 1000)] 0 hall2]
  · unfold run_sql_script
    simp only []
    rw [hlock3]

/-- Witness for the amended C7, on explicit inputs for all five
conjuncts. -/
theorem claim_C7_amended_counter_discipline_witness :
    (run_sql_step (.ok (some ["row"])) "t" "S" ⟨0, 0⟩).2 = record_success ⟨0, 0⟩
    ∧ (run_sql_step (.err ⟨true, "boom"⟩) "t" "S" ⟨0, 0⟩).2 =
        record_failure ⟨0, 0⟩
    ∧ (run_sql_script exFailOnFAIL "t" "SELECT 1; FAIL; SELECT 2" 300
        ⟨0, 0⟩).counts = ⟨0, 0⟩
    ∧ (run_sql_script exAllOk "t2" "A; B" 300 ⟨0, 0⟩).counts =
        record_success ⟨0, 0⟩
    ∧ (run_sql_script exNoLock "t3" "A; B" 300 ⟨0, 0⟩).counts =
        record_failure ⟨0, 0⟩ := by
  have h := claim_C7_amended_counter_discipline
    exFailOnFAIL exAllOk exNoLock "t" "t2" "t3"
    "SELECT 1; FAIL; SELECT 2" "A; B" "A; B" 300 300 300
    ⟨0, 0⟩ ⟨0, 0⟩ ⟨0, 0⟩ ["SELECT 1"] ["SELECT 2"] "FAIL"
    ⟨true, "boom"⟩ ⟨false, "lockfail"⟩
    rfl rfl
    (by
      intro g hg _
      have hg2 : g = "SELECT 1" := by simpa using hg
      subst hg2; rfl)
    (by intro h2; cases h2)
    rfl rfl (fun g _ _ => rfl) rfl
  exact ⟨h.1 (some ["row"]) "t" "S" ⟨0, 0⟩, h.2.1 ⟨true, "boom"⟩ "t" "S" ⟨0, 0⟩,
    h.2.2.1, h.2.2.2.1, h.2.2.2.2⟩

/-! ## Claim about `sanitize_sql` -/

/-- C8: `sanitize_sql` returns its input unchanged when the input has no
control characters, is a fixed point of NFKC normalization, matches no
denylist pattern and has even quote counts; it returns the empty string
whenever the (stripped, normalized) text matches a denylist pattern or has
an odd single- or double-quote count. -/
theorem claim_C8_sanitize_identity_and_reject (nfkc : String → String)
    (s t : String)
    (hstrip : ∀ c ∈ s.data, isStrippedCtrl c = false)
    (hnfkc : nfkc s = s)
    (hinj : containsInjection s = false)
    (hq1 : s.data.count '\x27' % 2 = 0)
    (hq2 : s.data.count '"' % 2 = 0)
    (ht : containsInjection (nfkc (stripCtrl t)) = true
        ∨ (nfkc (stripCtrl t)).data.count '\x27' % 2 ≠ 0
        ∨ (nfkc (stripCtrl t)).data.count '"' % 2 ≠ 0) :
    sanitize_sql nfkc s = s ∧ sanitize_sql nfkc t = "" := by
  have hs : stripCtrl s = s := by
    unfold stripCtrl
    have h2 : s.data.filter (fun c => ¬ isStrippedCtrl c) = s.data :=
      List.filter_eq_self.mpr (fun c hc => by simp [hstrip c hc])
    rw [h2]
  constructor
  · unfold sanitize_sql
    rw [hs, hnfkc]
    simp [hinj, hq1, hq2]
  · unfold sanitize_sql
    rcases ht with h | h | h
    · simp [h]
    · by_cases hI : containsInjection (nfkc (stripCtrl t)) = true
      · simp [hI]
      · simp only [Bool.not_eq_true] at hI
        simp [hI, h]
    · by_cases hI : containsInjection (nfkc (stripCtrl t)) = true
      · simp [hI]
      · simp only [Bool.not_eq_true] at hI
        simp [hI, h]

/-- Witness for C8 at the spec's two examples: the benign
`SELECT * FROM t` is unchanged, the injection attempt
`'; DROP TABLE users; --` is rejected to the empty string. -/
theorem claim_C8_sanitize_identity_and_reject_witness :
    sanitize_sql id "SELECT * FROM t" = "SELECT * FROM t"
    ∧ sanitize_sql id "\x27; DROP TABLE users; --" = "" :=
  claim_C8_sanitize_identity_and_reject id "SELECT * FROM t"
    "\x27; DROP TABLE users; --"
    (by decide) rfl (by decide) (by decide) (by decide)
    (Or.inl (by decide))

/-! ## Claim about `transaction_scope` -/

/-- C2: `transaction_scope` hands the body a connection with autocommit
disabled; on normal completion it commits exactly once and rolls back zero
times; on an exception inside the scope it rolls back exactly once,
commits zero times and the original exception propagates; in both cases
the prior autocommit mode is restored.  (The bodies are assumed not to
call commit/rollback themselves, so the counter deltas are the scope's
own calls.) -/
theorem claim_C2_transaction_scope (body1 body2 : TConn → Except Err Unit × TConn)
    (conn : TConn) (e : Err)
    (hok : (body1 { conn with autocommit := false }).1 = .ok ())
    (hpres1c : (body1 { conn with autocommit := false }).2.commits = conn.commits)
    (hpres1r : (body1 { conn with autocommit := false }).2.rollbacks = conn.rollbacks)
    (herr : (body2 { conn with autocommit := false }).1 = .error e)
    (hpres2c : (body2 { conn with autocommit := false }).2.commits = conn.commits)
    (hpres2r : (body2 { conn with autocommit := false }).2.rollbacks = conn.rollbacks) :
    ({ conn with autocommit := false } : TConn).autocommit = false
    ∧ (transaction_scope body1 conn).1 = .ok ()
    ∧ (transaction_scope body1 conn).2.commits = conn.commits + 1
    ∧ (transaction_scope body1 conn).2.rollbacks = conn.rollbacks
    ∧ (transaction_scope body1 conn).2.autocommit = conn.autocommit
    ∧ (transaction_scope body2 conn).1 = .error e
    ∧ (transaction_scope body2 conn).2.commits = conn.commits
    ∧ (transaction_scope body2 conn).2.rollbacks = conn.rollbacks + 1
    ∧ (transaction_scope body2 conn).2.autocommit = conn.autocommit := by
  rcases hb1 : body1 { conn with autocommit := false } with ⟨r1, c1⟩
  rcases hb2 : body2 { conn with autocommit := false } with ⟨r2, c2⟩
  rw [hb1] at hok hpres1c hpres1r
  rw [hb2] at herr hpres2c hpres2r
  simp only [] at hok hpres1c hpres1r herr hpres2c hpres2r
  subst hok
  subst herr
  unfold transaction_scope
  simp only []
  rw [hb1, hb2]
  refine ⟨?_, ?_, ?_, ?_, ?_, ?_, ?_, ?_, ?_⟩ <;>
    simp [commitConn, rollbackConn, hpres1c, hpres1r, hpres2c, hpres2r]

/-- Witness for C2: a connection starting with autocommit on and zeroed
counters, a body that returns normally and one that raises. -/
theorem claim_C2_transaction_scope_witness :
    ({ (⟨true, 0, 0⟩ : TConn) with autocommit := false } : TConn).autocommit
        = false
    ∧ (transaction_scope bodyOk ⟨true, 0, 0⟩).1 = .ok ()
    ∧ (transaction_scope bodyOk ⟨true, 0, 0⟩).2.commits = 0 + 1
    ∧ (transaction_scope bodyOk ⟨true, 0, 0⟩).2.rollbacks = 0
    ∧ (transaction_scope bodyOk ⟨true, 0, 0⟩).2.autocommit = true
    ∧ (transaction_scope bodyRaise ⟨true, 0, 0⟩).1 = .error ⟨false, "boom"⟩
    ∧ (transaction_scope bodyRaise ⟨true, 0, 0⟩).2.commits = 0
    ∧ (transaction_scope bodyRaise ⟨true, 0, 0⟩).2.rollbacks = 0 + 1
    ∧ (transaction_scope bodyRaise ⟨true, 0, 0⟩).2.autocommit = true :=
  claim_C2_transaction_scope bodyOk bodyRaise ⟨true, 0, 0⟩ ⟨false, "boom"⟩
    rfl rfl rfl rfl rfl rfl

/-! ## The PK/constraint loop: the empty-table gate and the row order -/

/-- C6: the empty-table gate of the PK loop is a tautology.  The claim
says a row with null/≤0 scope count is skipped when
`include_empty_tables` is off; the code's condition
`(scope_row_count != 0 or scope_row_count is not None) or include_empty`
is true for every input (for `None` the first disjunct holds, for any
number the second), so the script is always executed — in particular a
row with `ScopeRowCount` NULL under `include_empty_tables = false` is
still submitted. -/
theorem claim_C6_pk_empty_table_gate_is_tautology :
    pk_row_gate none false = true
    ∧ pk_row_gate (some 0) false = true
    ∧ (∀ (src : Option Int) (inc : Bool), pk_row_gate src inc = true)
    ∧ pk_submissions false [pkRowEmptyEx] = [pkRowEmptyEx] := by
  refine ⟨rfl, rfl, ?_, rfl⟩
  intro src inc
  cases src with
  | none => rfl
  | some n => simp [pk_row_gate]

/-- `cmpNat x y ≠ .gt` says exactly `x ≤ y`. -/
theorem cmpNat_ne_gt_iff (a b : Nat) : cmpNat a b ≠ .gt ↔ a ≤ b := by
  unfold cmpNat
  split_ifs with h1 h2 <;> simp <;> omega

/-- `cmpChars` is reflexive. -/
theorem cmpChars_self : ∀ cs, cmpChars cs cs = .eq := by
  intro cs
  induction cs with
  | nil => rfl
  | cons c cs ih => simp [cmpChars, ih]

/-- Swapping the arguments of `cmpChars` swaps the ordering. -/
theorem cmpChars_swap : ∀ as bs, cmpChars as bs = (cmpChars bs as).swap := by
  intro as
  induction as with
  | nil => intro bs; cases bs <;> rfl
  | cons a as ih =>
    intro bs
    cases bs with
    | nil => rfl
    | cons b bs =>
      simp only [cmpChars]
      rcases Nat.lt_trichotomy a.toNat b.toNat with h | h | h
      · have h2 : ¬ b.toNat < a.toNat := by omega
        simp [h, h2]
        rfl
      · have h2 : ¬ a.toNat < b.toNat := by omega
        have h3 : ¬ b.toNat < a.toNat := by omega
        simp [h2, h3, ih bs]
      · have h2 : ¬ a.toNat < b.toNat := by omega
        simp [h, h2]
        rfl

/-- A `cmpChars`-equal first argument can be exchanged. -/
theorem cmpChars_eq_congr : ∀ as bs, cmpChars as bs = .eq →
    ∀ cs, cmpChars as cs = cmpChars bs cs := by
  intro as
  induction as with
  | nil =>
    intro bs h cs
    cases bs with
    | nil => rfl
    | cons b bs => simp [cmpChars] at h
  | cons a as ih =>
    intro bs h cs
    cases bs with
    | nil => simp [cmpChars] at h
    | cons b bs =>
      simp only [cmpChars] at h
      by_cases h1 : a.toNat < b.toNat
      · rw [if_pos h1] at h; exact absurd h (by decide)
      · rw [if_neg h1] at h
        by_cases h2 : b.toNat < a.toNat
        · rw [if_pos h2] at h; exact absurd h (by decide)
        · rw [if_neg h2] at h
          have hab : a.toNat = b.toNat := by omega
          cases cs with
          | nil => rfl
          | cons c cs2 =>
            simp only [cmpChars, hab]
            rw [ih bs h cs2]

/-- A `cmpChars`-equal second argument can be exchanged. -/
theorem cmpChars_eq_congr2 (bs cs : List Char) (h : cmpChars bs cs = .eq)
    (as : List Char) : cmpChars as bs = cmpChars as cs := by
  have hcb : cmpChars cs bs = .eq := by
    rw [cmpChars_swap cs bs, h]
    rfl
  rw [cmpChars_swap as bs, cmpChars_swap as cs, cmpChars_eq_congr cs bs hcb as]

/-- `cmpChars` strict order is transitive. -/
theorem cmpChars_lt_trans : ∀ as bs cs, cmpChars as bs = .lt →
    cmpChars bs cs = .lt → cmpChars as cs = .lt := by
  intro as
  induction as with
  | nil =>
    intro bs cs h1 h2
    cases bs with
    | nil => exact absurd h1 (by decide)
    | cons b bs =>
      cases cs with
      | nil => exact absurd h2 (by simp [cmpChars])
      | cons c cs => rfl
  | cons a as ih =>
    intro bs cs h1 h2
    cases bs with
    | nil => exact absurd h1 (by simp [cmpChars])
    | cons b bs =>
      cases cs with
      | nil => exact absurd h2 (by simp [cmpChars])
      | cons c cs =>
        simp only [cmpChars] at h1 h2 ⊢
        by_cases hab : a.toNat < b.toNat
        · by_cases hbc : b.toNat < c.toNat
          · rw [if_pos (by omega)]
          · rw [if_neg hbc] at h2
            by_cases hcb : c.toNat < b.toNat
            · rw [if_pos hcb] at h2; exact absurd h2 (by decide)
            · rw [if_pos (by omega)]
        · rw [if_neg hab] at h1
          by_cases hba : b.toNat < a.toNat
          · rw [if_pos hba] at h1; exact absurd h1 (by decide)
          · rw [if_neg hba] at h1
            by_cases hbc : b.toNat < c.toNat
            · rw [if_pos (by omega)]
            · rw [if_neg hbc] at h2
              by_cases hcb : c.toNat < b.toNat
              · rw [if_pos hcb] at h2; exact absurd h2 (by decide)
              · rw [if_neg hcb] at h2
                rw [if_neg (by omega), if_neg (by omega)]
                exact ih bs cs h1 h2

/-- The `ORDER BY` row order is total. -/
theorem pkRowLE_total : ∀ a b : PKRow, pkRowLE a b ∨ pkRowLE b a := by
  intro a b
  unfold pkRowLE cmpPKRow
  cases hs : cmpChars a.schemaName.data b.schemaName.data with
  | lt => left; simp
  | gt =>
    right
    have hs2 : cmpChars b.schemaName.data a.schemaName.data = .lt := by
      rw [cmpChars_swap, hs]; rfl
    simp [hs2]
  | eq =>
    have hs2 : cmpChars b.schemaName.data a.schemaName.data = .eq := by
      rw [cmpChars_swap, hs]; rfl
    cases ht : cmpChars a.tableName.data b.tableName.data with
    | lt => left; simp [hs]
    | gt =>
      right
      have ht2 : cmpChars b.tableName.data a.tableName.data = .lt := by
        rw [cmpChars_swap, ht]; rfl
      simp [hs2, ht2]
    | eq =>
      have ht2 : cmpChars b.tableName.data a.tableName.data = .eq := by
        rw [cmpChars_swap, ht]; rfl
      rcases Nat.le_total a.typey b.typey with h | h
      · left
        simp [hs, ht]
        exact (cmpNat_ne_gt_iff a.typey b.typey).mpr h
      · right
        simp [hs2, ht2]
        exact (cmpNat_ne_gt_iff b.typey a.typey).mpr h

/-- The `ORDER BY` row order is transitive. -/
theorem pkRowLE_trans : ∀ a b c : PKRow, pkRowLE a b → pkRowLE b c →
    pkRowLE a c := by
  intro a b c hab hbc
  unfold pkRowLE cmpPKRow at hab hbc ⊢
  cases hs1 : cmpChars a.schemaName.data b.schemaName.data with
  | gt => rw [hs1] at hab; exact absurd rfl hab
  | lt =>
    cases hs2 : cmpChars b.schemaName.data c.schemaName.data with
    | gt => rw [hs2] at hbc; exact absurd rfl hbc
    | lt =>
      have := cmpChars_lt_trans _ _ _ hs1 hs2
      simp [this]
    | eq =>
      have : cmpChars a.schemaName.data c.schemaName.data = .lt := by
        rw [← cmpChars_eq_congr2 _ _ hs2 a.schemaName.data]
        exact hs1
      simp [this]
  | eq =>
    cases hs2 : cmpChars b.schemaName.data c.schemaName.data with
    | gt => rw [hs2] at hbc; exact absurd rfl hbc
    | lt =>
      have : cmpChars a.schemaName.data c.schemaName.data = .lt := by
        rw [cmpChars_eq_congr _ _ hs1 c.schemaName.data]
        exact hs2
      simp [this]
    | eq =>
      have hs3 : cmpChars a.schemaName.data c.schemaName.data = .eq := by
        rw [cmpChars_eq_congr _ _ hs1 c.schemaName.data]
        exact hs2
      rw [hs1] at hab
      rw [hs2] at hbc
      rw [hs3]
      cases ht1 : cmpChars a.tableName.data b.tableName.data with
      | gt => rw [ht1] at hab; exact absurd rfl hab
      | lt =>
        cases ht2 : cmpChars b.tableName.data c.tableName.data with
        | gt => rw [ht2] at hbc; exact absurd rfl hbc
        | lt =>
          have := cmpChars_lt_trans _ _ _ ht1 ht2
          simp [this]
        | eq =>
          have : cmpChars a.tableName.data c.tableName.data = .lt := by
            rw [← cmpChars_eq_congr2 _ _ ht2 a.tableName.data]
            exact ht1
          simp [this]
      | eq =>
        cases ht2 : cmpChars b.tableName.data c.tableName.data with
        | gt => rw [ht2] at hbc; exact absurd rfl hbc
        | lt =>
          have : cmpChars a.tableName.data c.tableName.data = .lt := by
            rw [cmpChars_eq_congr _ _ ht1 c.tableName.data]
            exact ht2
          simp [this]
        | eq =>
          have ht3 : cmpChars a.tableName.data c.tableName.data = .eq := by
            rw [cmpChars_eq_congr _ _ ht1 c.tableName.data]
            exact ht2
          rw [ht1] at hab
          rw [ht2] at hbc
          rw [ht3]
          rw [cmpNat_ne_gt_iff] at hab hbc ⊢
          omega

/-- The PK loop's submissions are a sublist of the fetched rows (rows can
only be dropped — by the gate, or by a validation error aborting the
loop — never reordered). -/
theorem pk_submissions_sublist (inc : Bool) :
    ∀ l : List PKRow, List.Sublist (pk_submissions inc l) l := by
  intro l
  induction l with
  | nil => exact List.Sublist.refl []
  | cons r rest ih =>
    unfold pk_submissions
    cases validate_sql_identifier r.schemaName with
    | error e => exact List.nil_sublist _
    | ok v =>
      cases validate_sql_identifier r.tableName with
      | error e => exact List.nil_sublist _
      | ok w =>
        by_cases hg : pk_row_gate r.scopeRowCount inc
        · rw [if_pos hg]
          exact List.Sublist.cons₂ r ih
        · rw [if_neg hg]
          exact List.Sublist.cons r ih

/-- C9: the PK/constraint catalog query orders its rows by
`(schema_name, table_name, rank)`, the loop submits them in that order,
and for a table with both a NOT_NULL (rank 1) and a PK (rank 2) script
among the submissions, the NOT_NULL one is submitted strictly before the
PK one. -/
theorem claim_C9_not_null_before_pk (scripts : List PKScriptCat)
    (tables : List TableCat) (includeEmpty : Bool) :
    (pk_query_rows scripts tables).Sorted pkRowLE
    ∧ (pk_submitted scripts tables includeEmpty).Sorted pkRowLE
    ∧ (∀ (i j : Nat)
        (hi : i < (pk_submitted scripts tables includeEmpty).length)
        (hj : j < (pk_submitted scripts tables includeEmpty).length),
        ((pk_submitted scripts tables includeEmpty).get ⟨i, hi⟩).schemaName =
          ((pk_submitted scripts tables includeEmpty).get ⟨j, hj⟩).schemaName →
        ((pk_submitted scripts tables includeEmpty).get ⟨i, hi⟩).tableName =
          ((pk_submitted scripts tables includeEmpty).get ⟨j, hj⟩).tableName →
        ((pk_submitted scripts tables includeEmpty).get ⟨i, hi⟩).typey = 1 →
        ((pk_submitted scripts tables includeEmpty).get ⟨j, hj⟩).typey = 2 →
        i < j) := by
  have hsorted : (pk_query_rows scripts tables).Sorted pkRowLE := by
    unfold pk_query_rows
    exact @List.sorted_insertionSort PKRow pkRowLE _ ⟨pkRowLE_total⟩
      ⟨pkRowLE_trans⟩ _
  have hsub : List.Sublist (pk_submitted scripts tables includeEmpty)
      (pk_query_rows scripts tables) :=
    pk_submissions_sublist includeEmpty (pk_query_rows scripts tables)
  have hsorted2 : (pk_submitted scripts tables includeEmpty).Sorted pkRowLE :=
    List.Pairwise.sublist hsub hsorted
  refine ⟨hsorted, hsorted2, ?_⟩
  intro i j hi hj hsch htab hti htj
  by_contra hij
  have hne : i ≠ j := by
    intro hEq
    subst hEq
    have hfin : (⟨i, hi⟩ : Fin (pk_submitted scripts tables includeEmpty).length)
        = ⟨i, hj⟩ := rfl
    rw [hfin] at hti
    rw [hti] at htj
    exact absurd htj (by decide)
  have hji : j < i := by omega
  have hrel := List.pairwise_iff_get.1 hsorted2 ⟨j, hj⟩ ⟨i, hi⟩ hji
  unfold pkRowLE cmpPKRow at hrel
  rw [hsch, htab] at hrel
  rw [cmpChars_self, cmpChars_self, hti, htj] at hrel
  exact hrel rfl

/-- Witness for C9 on a concrete catalog: the fetched rows are sorted,
and the NOT_NULL script of `dbo.T1` is submitted at position 0, before
its PK script at position 1. -/
theorem claim_C9_not_null_before_pk_witness :
    (pk_query_rows pkScriptsEx pkTablesEx).Sorted pkRowLE
    ∧ (0 : Nat) < 1 := by
  have h := claim_C9_not_null_before_pk pkScriptsEx pkTablesEx false
  refine ⟨h.1, ?_⟩
  exact h.2.2 0 1 (by decide) (by decide) (by decide) (by decide)
    (by decide) (by decide)

/-! ## The table-operations loop: per-row isolation -/

/-- Evaluation of one catalog row whose drop statement raises: rollback,
error-log line with the row index and qualified table name, failure tally
increment. -/
theorem process_row_drop_fails (env : LoopEnv) (idx : Nat) (row : CatalogRow)
    (st : RunState) (d s : String) (exc : SQLExecutionError)
    (hT : isValidIdentifier row.tableName = true)
    (hS : isValidIdentifier row.schemaName = true)
    (hd : sanitize_sql_opt env.nfkc row.dropIfExists = some d)
    (hdne : d ≠ "")
    (hsel : sanitize_sql_opt env.nfkc row.selectInto = some s)
    (hsne : s ≠ "")
    (hskip : env.includeEmptyTables = true ∨
      ∃ n : Int, row.scopeRowCount = some n ∧ 0 < n)
    (hdtrim : pyStrip d ≠ "")
    (hexec : env.execStep ("Drop " ++ (row.schemaName ++ "." ++ row.tableName)) d
      = .error exc) :
    process_catalog_row env idx row st =
      sqlErrorState
        { st with execCalls := st.execCalls ++
            [("Drop " ++ (row.schemaName ++ "." ++ row.tableName), d)] }
        idx (row.schemaName ++ "." ++ row.tableName) exc := by
  have hv1 : validate_sql_identifier row.tableName = .ok row.tableName := by
    unfold validate_sql_identifier; rw [if_pos hT]
  have hv2 : validate_sql_identifier row.schemaName = .ok row.schemaName := by
    unfold validate_sql_identifier; rw [if_pos hS]
  unfold process_catalog_row
  simp only []
  rw [hd, hsel, hv1, hv2]
  simp only [optStrFalsy]
  rw [if_neg (by simp [hdne, hsne])]
  rw [if_neg (by
    simp
    intro hinc
    rcases hskip with h | ⟨n, hn, hpos⟩
    · rw [h] at hinc; exact absurd hinc (by decide)
    · rw [hn]
      simp
      omega)]
  simp only [Option.getD_some]
  rw [if_pos hdtrim, hexec]

/-- Evaluation of one catalog row whose drop succeeds and whose
select-into raises: both statements are submitted, then rollback, log and
failure tally increment — and no commit. -/
theorem process_row_select_fails (env : LoopEnv) (idx : Nat) (row : CatalogRow)
    (st : RunState) (d s : String) (exc : SQLExecutionError)
    (hT : isValidIdentifier row.tableName = true)
    (hS : isValidIdentifier row.schemaName = true)
    (hd : sanitize_sql_opt env.nfkc row.dropIfExists = some d)
    (hdne : d ≠ "")
    (hsel : sanitize_sql_opt env.nfkc row.selectInto = some s)
    (hsne : s ≠ "")
    (hskip : env.includeEmptyTables = true ∨
      ∃ n : Int, row.scopeRowCount = some n ∧ 0 < n)
    (hdtrim : pyStrip d ≠ "")
    (hdrop : env.execStep ("Drop " ++ (row.schemaName ++ "." ++ row.tableName)) d
      = .ok ())
    (hstrim : pyStrip s ≠ "")
    (hselE :
      env.execStep ("SelectInto " ++ (row.schemaName ++ "." ++ row.tableName)) s
      = .error exc) :
    process_catalog_row env idx row st =
      sqlErrorState
        { st with execCalls := st.execCalls ++
            [("Drop " ++ (row.schemaName ++ "." ++ row.tableName), d),
             ("SelectInto " ++ (row.schemaName ++ "." ++ row.tableName), s)] }
        idx (row.schemaName ++ "." ++ row.tableName) exc := by
  have hv1 : validate_sql_identifier row.tableName = .ok row.tableName := by
    unfold validate_sql_identifier; rw [if_pos hT]
  have hv2 : validate_sql_identifier row.schemaName = .ok row.schemaName := by
    unfold validate_sql_identifier; rw [if_pos hS]
  unfold process_catalog_row
  simp only []
  rw [hd, hsel, hv1, hv2]
  simp only [optStrFalsy]
  rw [if_neg (by simp [hdne, hsne])]
  rw [if_neg (by
    simp
    intro hinc
    rcases hskip with h | ⟨n, hn, hpos⟩
    · rw [h] at hinc; exact absurd hinc (by decide)
    · rw [hn]
      simp
      omega)]
  simp only [Option.getD_some]
  rw [if_pos hdtrim, hdrop]
  simp only []
  rw [if_pos hstrim, hselE]
  simp [List.append_assoc]

/-- The loop processes a concatenation by processing the first part and
then — whatever happened there — the second part, with the enumeration
index advanced accordingly: no row's outcome removes any later row. -/
theorem table_ops_loop_append (env : LoopEnv) :
    ∀ (xs ys : List CatalogRow) (i : Nat) (st : RunState),
      table_ops_loop env i (xs ++ ys) st =
        table_ops_loop env (i + xs.length) ys (table_ops_loop env i xs st) := by
  intro xs
  induction xs with
  | nil =>
    intro ys i st
    simp [table_ops_loop]
  | cons r rest ih =>
    intro ys i st
    simp only [List.cons_append, table_ops_loop]
    simp only [List.append_eq]
    rw [ih]
    have h : i + 1 + rest.length = i + (rest.length + 1) := by omega
    rw [h]
    rfl

/-- C1: in the table-operations loop, a row whose drop or select-into
statement raises gets exactly one rollback, one error-log line carrying
the row index and qualified table name, and one failure-tally increment —
with no commit and no change to the success tally; the loop always
continues into the remaining rows whatever a row did; and the phase
aborts only when the catalog fetch itself raises (an abort that logs the
fatal error), never because of a row. -/
theorem claim_C1_per_row_isolation (env : LoopEnv) (idx idx2 : Nat)
    (row row2 : CatalogRow) (st st2 : RunState)
    (d s d2 s2 : String) (exc exc2 : SQLExecutionError)
    (hT : isValidIdentifier row.tableName = true)
    (hS : isValidIdentifier row.schemaName = true)
    (hd : sanitize_sql_opt env.nfkc row.dropIfExists = some d)
    (hdne : d ≠ "")
    (hsel : sanitize_sql_opt env.nfkc row.selectInto = some s)
    (hsne : s ≠ "")
    (hskip : env.includeEmptyTables = true ∨
      ∃ n : Int, row.scopeRowCount = some n ∧ 0 < n)
    (hdtrim : pyStrip d ≠ "")
    (hexec : env.execStep ("Drop " ++ (row.schemaName ++ "." ++ row.tableName)) d
      = .error exc)
    (hT2 : isValidIdentifier row2.tableName = true)
    (hS2 : isValidIdentifier row2.schemaName = true)
    (hd2 : sanitize_sql_opt env.nfkc row2.dropIfExists = some d2)
    (hd2ne : d2 ≠ "")
    (hsel2 : sanitize_sql_opt env.nfkc row2.selectInto = some s2)
    (hs2ne : s2 ≠ "")
    (hskip2 : env.includeEmptyTables = true ∨
      ∃ n : Int, row2.scopeRowCount = some n ∧ 0 < n)
    (hd2trim : pyStrip d2 ≠ "")
    (hdrop2 :
      env.execStep ("Drop " ++ (row2.schemaName ++ "." ++ row2.tableName)) d2
      = .ok ())
    (hs2trim : pyStrip s2 ≠ "")
    (hselE2 :
      env.execStep ("SelectInto " ++ (row2.schemaName ++ "." ++ row2.tableName)) s2
      = .error exc2) :
    ((process_catalog_row env idx row st).failed = st.failed + 1
      ∧ (process_catalog_row env idx row st).rollbacks = st.rollbacks + 1
      ∧ (process_catalog_row env idx row st).commits = st.commits
      ∧ (process_catalog_row env idx row st).successful = st.successful
      ∧ (process_catalog_row env idx row st).errorLog = st.errorLog ++
          ["SQL execution error for row " ++ toString idx ++ " ("
            ++ (row.schemaName ++ "." ++ row.tableName) ++ "): " ++ exc.message]
      ∧ (process_catalog_row env idx row st).execCalls = st.execCalls ++
          [("Drop " ++ (row.schemaName ++ "." ++ row.tableName), d)])
    ∧ ((process_catalog_row env idx2 row2 st2).failed = st2.failed + 1
      ∧ (process_catalog_row env idx2 row2 st2).rollbacks = st2.rollbacks + 1
      ∧ (process_catalog_row env idx2 row2 st2).commits = st2.commits
      ∧ (process_catalog_row env idx2 row2 st2).successful = st2.successful
      ∧ (process_catalog_row env idx2 row2 st2).errorLog = st2.errorLog ++
          ["SQL execution error for row " ++ toString idx2 ++ " ("
            ++ (row2.schemaName ++ "." ++ row2.tableName) ++ "): "
            ++ exc2.message]
      ∧ (process_catalog_row env idx2 row2 st2).execCalls = st2.execCalls ++
          [("Drop " ++ (row2.schemaName ++ "." ++ row2.tableName), d2),
           ("SelectInto " ++ (row2.schemaName ++ "." ++ row2.tableName), s2)])
    ∧ (∀ (xs ys : List CatalogRow) (i : Nat) (st0 : RunState),
        table_ops_loop env i (xs ++ ys) st0 =
          table_ops_loop env (i + xs.length) ys (table_ops_loop env i xs st0))
    ∧ (∀ (e : Err) (st0 : RunState),
        execute_table_operations env (.error e) st0 =
          .error (e, { st0 with
            errorLog := st0.errorLog ++ ["Fatal query error: " ++ e.msg] }))
    ∧ (∀ (rows : List CatalogRow) (st0 : RunState),
        execute_table_operations env (.ok rows) st0 =
          .ok (table_ops_loop env 1 rows st0)) := by
  have hA := process_row_drop_fails env idx row st d s exc
    hT hS hd hdne hsel hsne hskip hdtrim hexec
  have hB := process_row_select_fails env idx2 row2 st2 d2 s2 exc2
    hT2 hS2 hd2 hd2ne hsel2 hs2ne hskip2 hd2trim hdrop2 hs2trim hselE2
  refine ⟨⟨?_, ?_, ?_, ?_, ?_, ?_⟩, ⟨?_, ?_, ?_, ?_, ?_, ?_⟩,
    table_ops_loop_append env, fun e st0 => rfl, fun rows st0 => rfl⟩
  all_goals first
    | (rw [hA]; simp [sqlErrorState])
    | (rw [hB]; simp [sqlErrorState])

/-- Witness for C1 under `envC1`: `rowDropFails` (drop raises) and
`rowSelectFails` (select-into raises) each roll back once, log once with
the row index and qualified name, count one failure, commit nothing; the
loop over a concatenation always proceeds into the tail; a fetch error is
re-raised after logging while a fetched row list is processed to
completion. -/
theorem claim_C1_per_row_isolation_witness :
    ((process_catalog_row envC1 1 rowDropFails ⟨0, 0, [], 0, 0, []⟩).failed = 1
      ∧ (process_catalog_row envC1 1 rowDropFails ⟨0, 0, [], 0, 0, []⟩).rollbacks = 1
      ∧ (process_catalog_row envC1 1 rowDropFails ⟨0, 0, [], 0, 0, []⟩).commits = 0
      ∧ (process_catalog_row envC1 1 rowDropFails ⟨0, 0, [], 0, 0, []⟩).successful = 0
      ∧ (process_catalog_row envC1 1 rowDropFails ⟨0, 0, [], 0, 0, []⟩).errorLog =
          ["SQL execution error for row 1 (dbo.TabA): SQL execution failed for Drop dbo.TabA: boom"]
      ∧ (process_catalog_row envC1 1 rowDropFails ⟨0, 0, [], 0, 0, []⟩).execCalls =
          [("Drop dbo.TabA", "DROP BAD")])
    ∧ ((process_catalog_row envC1 2 rowSelectFails ⟨0, 0, [], 0, 0, []⟩).failed = 1
      ∧ (process_catalog_row envC1 2 rowSelectFails ⟨0, 0, [], 0, 0, []⟩).rollbacks = 1
      ∧ (process_catalog_row envC1 2 rowSelectFails ⟨0, 0, [], 0, 0, []⟩).commits = 0
      ∧ (process_catalog_row envC1 2 rowSelectFails ⟨0, 0, [], 0, 0, []⟩).successful = 0
      ∧ (process_catalog_row envC1 2 rowSelectFails ⟨0, 0, [], 0, 0, []⟩).errorLog =
          ["SQL execution error for row 2 (dbo.TabB): SQL execution failed for SelectInto dbo.TabB: boom"]
      ∧ (process_catalog_row envC1 2 rowSelectFails ⟨0, 0, [], 0, 0, []⟩).execCalls =
          [("Drop dbo.TabB", "DROP B"), ("SelectInto dbo.TabB", "SELECT BAD")])
    ∧ table_ops_loop envC1 1 ([rowDropFails] ++ [rowClean]) ⟨0, 0, [], 0, 0, []⟩ =
        table_ops_loop envC1 (1 + 1) [rowClean]
          (table_ops_loop envC1 1 [rowDropFails] ⟨0, 0, [], 0, 0, []⟩)
    ∧ execute_table_operations envC1 (.error ⟨true, "conn lost"⟩)
        ⟨0, 0, [], 0, 0, []⟩ =
        .error (⟨true, "conn lost"⟩,
          ⟨0, 0, ["Fatal query error: conn lost"], 0, 0, []⟩)
    ∧ execute_table_operations envC1 (.ok [rowDropFails, rowClean])
        ⟨0, 0, [], 0, 0, []⟩ =
        .ok (table_ops_loop envC1 1 [rowDropFails, rowClean]
          ⟨0, 0, [], 0, 0, []⟩) := by
  have h := claim_C1_per_row_isolation envC1 1 2 rowDropFails rowSelectFails
    ⟨0, 0, [], 0, 0, []⟩ ⟨0, 0, [], 0, 0, []⟩
    "DROP BAD" "SELECT 1 INTO A" "DROP B" "SELECT BAD"
    ⟨"DROP BAD", ⟨true, "boom"⟩, some "Drop dbo.TabA"⟩
    ⟨"SELECT BAD", ⟨true, "boom"⟩, some "SelectInto dbo.TabB"⟩
    (by decide) (by decide) rfl (by decide) rfl (by decide)
    (Or.inr ⟨5, rfl, by decide⟩) (by decide) rfl
    (by decide) (by decide) rfl (by decide) rfl (by decide)
    (Or.inr ⟨3, rfl, by decide⟩) (by decide) rfl (by decide) rfl
  exact ⟨h.1, h.2.1,
    h.2.2.1 [rowDropFails] [rowClean] 1 ⟨0, 0, [], 0, 0, []⟩,
    h.2.2.2.1 ⟨true, "conn lost"⟩ ⟨0, 0, [], 0, 0, []⟩,
    h.2.2.2.2 [rowDropFails, rowClean] ⟨0, 0, [], 0, 0, []⟩⟩

end EJ
